import Mathlib

/-!
Shallow embedding of the GuardDuty-to-Slack lambda (src/src/lib.rs) and
verification of its specification.  Pure Rust functions become Lean
functions; the two panic sites inside payload construction and the fatal
paths of the handler become Except; the f32 severity is modelled as a
rational number or NaN; the fixed regex used by the link resolver is
modelled as an explicit scanner with the same leftmost-match semantics.
-/

namespace GuardDuty

/-- Rust f32 severity value: a finite value is modelled as a rational
number, NaN as none.  The JSON decoder only ever produces finite values,
but the classifier must also be total on NaN, which compares false under
every ordering test. -/
abbrev F32 := Option ℚ

/-- Rust comparison v >= b on an f32, false when v is NaN. -/
def f32_ge (v : F32) (b : ℚ) : Bool :=
  match v with
  | none => false
  | some x => decide (b ≤ x)

/-- Rust comparison v < b on an f32, false when v is NaN. -/
def f32_lt (v : F32) (b : ℚ) : Bool :=
  match v with
  | none => false
  | some x => decide (x < b)

/-- One presentation tier: display colour and group mention, lib.rs 216-219. -/
structure SeverityLevel where
  colour : String
  mention : String
deriving DecidableEq

/-- The five-tier table, lib.rs 221-227. -/
structure Levels where
  critical : SeverityLevel
  high : SeverityLevel
  medium : SeverityLevel
  low : SeverityLevel
  unknown : SeverityLevel

/-- Colour constant, lib.rs 272. -/
def Colour.RED : String := "#DF4661"

/-- Colour constant, lib.rs 273. -/
def Colour.ORANGE : String := "#DB6B30"

/-- Colour constant, lib.rs 274. -/
def Colour.YELLOW : String := "#FED141"

/-- Colour constant, lib.rs 275. -/
def Colour.GREEN : String := "#008C95"

/-- Colour constant, lib.rs 276. -/
def Colour.BLUE : String := "#00A3E0"

/-- Colour constant, lib.rs 277. -/
def Colour.SILVER : String := "#BABABA"

/-- Colour constant, lib.rs 278. -/
def Colour.PINK : String := "#AF1685"

/-- Colour constant, lib.rs 279. -/
def Colour.PURPLE : String := "#2E1A47"

/-- Default tier table, lib.rs 229-254. -/
def Levels.default : Levels :=
  { critical := { colour := Colour.RED, mention := "@channel" }
    high := { colour := Colour.ORANGE, mention := "@channel" }
    medium := { colour := Colour.YELLOW, mention := "@here" }
    low := { colour := Colour.BLUE, mention := "" }
    unknown := { colour := Colour.SILVER, mention := "" } }

/-- Severity classifier, lib.rs 256-266: a match with range guards that
falls through to unknown; for NaN every guard is false. -/
def Levels.from_severity (l : Levels) (severity : F32) : SeverityLevel :=
  if f32_ge severity 9 && f32_lt severity 10 then l.critical
  else if f32_ge severity 7 && f32_lt severity 9 then l.high
  else if f32_ge severity 4 && f32_lt severity 7 then l.medium
  else if f32_ge severity 1 && f32_lt severity 4 then l.low
  else l.unknown

/-- Uninterpreted JSON values carried by the event but never inspected by
the core logic: the resource, resources, action and additional info
fields. -/
inductive Json where
  | null : Json
  | str : String → Json
  | obj : List (String × Json) → Json

/-- UTC timestamp as decoded by chrono, modelled by its civil fields. -/
structure DateTime where
  year : Int
  month : Nat
  day : Nat
  hour : Nat
  minute : Nat
  second : Nat
deriving DecidableEq

/-- Service block of a finding, lib.rs 91-103. -/
structure Service where
  service_name : String
  detector_id : String
  action : Json
  resource_role : String
  additional_info : Json
  event_first_seen : DateTime
  event_last_seen : DateTime
  archived : Bool
  count : Nat

/-- Detail block of a finding, lib.rs 71-89.  The Rust field tipe holds
the JSON type field, type being a reserved Rust word. -/
structure Detail where
  schema_version : String
  account_id : String
  region : String
  partition : String
  id : String
  arn : String
  tipe : String
  resource : Json
  service : Service
  severity : F32
  created_at : DateTime
  updated_at : DateTime
  title : String
  description : String

/-- Decoded SNS message envelope, lib.rs 57-69. -/
structure Message where
  version : String
  id : String
  detail_type : String
  source : String
  account : String
  time : DateTime
  region : String
  resources : Json
  detail : Detail

/-- Rust str::to_lowercase, modelled over the ASCII range used by
GuardDuty finding types. -/
def to_lowercase (s : String) : String :=
  String.mk (s.data.map Char.toLower)

/-- A word character of the regex class w, modelled over the ASCII range:
letters, digits and the underscore. -/
def isWordChar (c : Char) : Bool :=
  c.isAlphanum || c = '_'

/-- Scanner for the fixed pattern used at lib.rs 187: positioned just
after a colon, consume the run of word characters closed by a slash and
return it; none when a non-word, non-slash character or the end of the
string intervenes.  Since the class w excludes the slash, the lazy
quantifier of the original pattern coincides with this greedy reading. -/
def matchAfterColon : List Char → Option (List Char)
  | [] => none
  | c :: rest =>
    if c = '/' then some []
    else if isWordChar c then (matchAfterColon rest).map (fun cap => c :: cap)
    else none

/-- Leftmost capture of the pattern colon, word characters, slash: the
model of Regex::captures at lib.rs 187-189.  The engine scans start
positions left to right, and a match can only start at a colon. -/
def captures : List Char → Option (List Char)
  | [] => none
  | c :: rest =>
    if c = ':' then
      match matchAfterColon rest with
      | some cap => some cap
      | none => captures rest
    else captures rest

/-- Model of Regex::replace at lib.rs 211: rewrite the leftmost whole
match of the pattern, colon capture slash, to the replacement, leaving the
string unchanged when there is no match. -/
def replaceMatch : List Char → List Char → List Char
  | [], _ => []
  | c :: rest, repl =>
    if c = ':' then
      match matchAfterColon rest with
      | some cap => repl ++ List.drop (cap.length + 1) rest
      | none => c :: replaceMatch rest repl
    else c :: replaceMatch rest repl

/-- Base URL of the GuardDuty finding-type documentation, lib.rs 185. -/
def base_url : String :=
  "https://docs.aws.amazon.com/guardduty/latest/ug/guardduty_finding-types-"

/-- Closed category table, the match at lib.rs 199-209.  The defensive
Rust arm for an absent capture group collapses into the none case of
captures, since group 1 always participates in a match of this pattern. -/
def groupOf (cap : List Char) : Option String :=
  if cap = "iamuser".data then some "iam"
  else if cap = "ec2".data then some "ec2"
  else if cap = "s3".data then some "s3"
  else if cap = "kubernetes".data then some "kubernetes"
  else none

/-- Finding-link resolver, lib.rs 183-214: lower-case the finding type,
capture the category token, map it through the closed table, rewrite the
matched delimiter segment to -group- and compose the URL; every failure
path returns the empty string after logging. -/
def Message.finding_link (m : Message) : String :=
  let finding := m.detail.tipe
  let lower_finding := to_lowercase finding
  match captures lower_finding.data with
  | none => ""
  | some cap =>
    match groupOf cap with
    | none => ""
    | some group_str =>
      let anchor := String.mk
        (replaceMatch lower_finding.data (("-" ++ group_str ++ "-").data))
      base_url ++ group_str ++ ".html#" ++ anchor

/-- Rest of the list after the first occurrence of a character, none when
the character does not occur. -/
def afterFirst (t : Char) : List Char → Option (List Char)
  | [] => none
  | c :: rest => if c = t then some rest else afterFirst t rest

/-- Content strictly before the first occurrence of a character, none when
the character does not occur. -/
def beforeFirst (t : Char) : List Char → Option (List Char)
  | [] => none
  | c :: rest =>
    if c = t then some []
    else (beforeFirst t rest).map (fun p => c :: p)

/-- The extraction rule as the spec words it: the substring between the
first colon and the following slash, none when no such delimited substring
exists.  Stated only for comparison with the captures model taken from the
source. -/
def specToken (cs : List Char) : Option (List Char) :=
  (afterFirst ':' cs).bind (beforeFirst '/')

/-- Sakamoto weekday offsets per month. -/
def weekdayTable : List Int := [0, 3, 2, 5, 0, 3, 5, 1, 4, 6, 2, 4]

/-- Day of week of a civil date, 0 for Sunday, by the Sakamoto formula. -/
def weekdayIndex (dt : DateTime) : Nat :=
  let y : Int := if dt.month < 3 then dt.year - 1 else dt.year
  (((y + y.fdiv 4 - y.fdiv 100 + y.fdiv 400) +
      weekdayTable.getD (dt.month - 1) 0 + (dt.day : Int)).emod 7).toNat

/-- Abbreviated weekday name, the chrono field a. -/
def weekdayAbbrev (i : Nat) : String :=
  ["Sun", "Mon", "Tue", "Wed", "Thu", "Fri", "Sat"].getD i "Sun"

/-- Abbreviated month name, the chrono field b. -/
def monthAbbrev (m : Nat) : String :=
  ["Jan", "Feb", "Mar", "Apr", "May", "Jun", "Jul", "Aug", "Sep", "Oct",
    "Nov", "Dec"].getD (m - 1) "Jan"

/-- Zero-padded two-digit number, for the chrono fields H, M and S. -/
def pad2 (n : Nat) : String :=
  if n < 10 then "0" ++ toString n else toString n

/-- Space-padded day of month, the chrono field e. -/
def padSpace2 (n : Nat) : String :=
  if n < 10 then " " ++ toString n else toString n

/-- Chrono formatting with the pattern a b e T used at lib.rs 134 and 150:
abbreviated weekday, abbreviated month, space-padded day of month, and the
clock time. -/
def formatDateTime (dt : DateTime) : String :=
  weekdayAbbrev (weekdayIndex dt) ++ " " ++ monthAbbrev dt.month ++ " " ++
    padSpace2 dt.day ++ " " ++ pad2 dt.hour ++ ":" ++ pad2 dt.minute ++
    ":" ++ pad2 dt.second

/-- Decimal digits of the fraction num over den, num below den; the fuel
bounds the expansion and 64 digits cover every f32 severity value. -/
def fracDigits : Nat → Nat → Nat → String
  | 0, _, _ => ""
  | fuel + 1, num, den =>
    if num = 0 then ""
    else toString (num * 10 / den) ++ fracDigits fuel (num * 10 % den) den

/-- Rust f32 Display on the modelled severity, the to_string call at
lib.rs 125: NaN, or sign, integer part and the exact terminating decimal
expansion of the fractional part; a whole number prints with no decimal
point. -/
def f32Display : F32 → String
  | none => "NaN"
  | some q =>
    let sign := if q < 0 then "-" else ""
    let n := q.num.natAbs
    let d := q.den
    sign ++ toString (n / d) ++
      (if n % d = 0 then "" else "." ++ fracDigits 64 (n % d) d)

/-- One labelled short field of the Slack attachment, the slack crate
Field struct used at lib.rs 122-155. -/
structure Field where
  title : String
  value : String
  short : Option Bool
deriving DecidableEq

/-- The composed Slack attachment, the result of the builder chain at
lib.rs 156-170; the ts value keeps the civil fields of updated_at, which
is what naive_local yields on a UTC datetime. -/
structure Attachment where
  fallback : String
  color : String
  pretext : String
  title : String
  title_link : String
  text : String
  fields : List Field
  footer : String
  footer_icon : String
  ts : DateTime
deriving DecidableEq

/-- The outbound Slack payload, lib.rs 172-176. -/
structure Payload where
  attachments : List Attachment
  link_names : Bool
deriving DecidableEq

/-- Hexadecimal digit test for colour validation. -/
def isHexDigitChar (c : Char) : Bool :=
  c.isDigit || ('a' ≤ c && c ≤ 'f') || ('A' ≤ c && c ≤ 'F')

/-- Well-formed hex colour string: a hash sign followed by six hex
digits. -/
def validColour (s : String) : Bool :=
  match s.data with
  | c :: rest => c = '#' && rest.length = 6 && rest.all isHexDigitChar
  | [] => false

/-- Modelled from the spec: the slack builder crate is an external
collaborator whose sources are not part of this repository; per the spec
the sub-builders fail only on an internal contract violation, here a
malformed tier colour, and in particular accept an empty title link.  The
error value is the expect message at lib.rs 170. -/
def attachment_build (a : Attachment) : Except String Attachment :=
  if validColour a.color then Except.ok a
  else Except.error "ERR: Failed to build Slack attachment"

/-- Modelled from the spec: the payload builder has no failing setter on
this code path, attachments and link names being plain assignments; the
expect at lib.rs 176 is therefore unreachable. -/
def payload_build (p : Payload) : Except String Payload :=
  Except.ok p

/-- Payload composer, lib.rs 113-177: classify the severity, compose the
fallback line, the four short fields and the attachment, and wrap it into
the payload; the two expect panic sites become the error branches. -/
def Message.build_payload (m : Message) : Except String Payload :=
  let levels := Levels.default
  let level := levels.from_severity m.detail.severity
  let fallback := "GuardDuty:" ++ m.detail.tipe ++ " in " ++
    m.detail.account_id ++ " " ++ m.detail.region
  let fields : List Field :=
    [{ title := "Severity", value := f32Display m.detail.severity,
       short := some true },
     { title := "First seen",
       value := formatDateTime m.detail.service.event_first_seen,
       short := some true },
     { title := "Count", value := toString m.detail.service.count,
       short := some true },
     { title := "Last seen",
       value := formatDateTime m.detail.service.event_last_seen,
       short := some true }]
  match attachment_build
      { fallback := fallback
        color := level.colour
        pretext := "*Finding in " ++ m.detail.region ++ " from account " ++
          m.detail.account_id ++ "* " ++ level.mention
        title := m.detail.tipe
        title_link := m.finding_link
        text := m.detail.description
        fields := fields
        footer := "GuardyBot"
        footer_icon := "https://rustacean.net/assets/rustacean-flat-happy.png"
        ts := m.detail.updated_at } with
  | Except.error e => Except.error e
  | Except.ok a =>
    match payload_build { attachments := [a], link_names := true } with
    | Except.error e => Except.error e
    | Except.ok p => Except.ok p

/-- The payload built for a message, defaulting on the unreachable error
branch; used to name concrete witnesses. -/
def payloadOf (m : Message) : Payload :=
  match m.build_payload with
  | Except.ok p => p
  | Except.error _ => { attachments := [], link_names := true }

/-- Response of the external webhook to one delivery attempt. -/
inductive DeliveryOutcome where
  | accepted : DeliveryOutcome
  | rejected : DeliveryOutcome

/-- The JSON value the handler returns on success, lib.rs 42. -/
def okJson : Json := Json.obj [("message", Json.str "OK")]

/-- SNS entity of one record: the embedded message document, optional in
the wire format. -/
structure SnsEntity where
  message : Option String

/-- One record of the inbound SNS event. -/
structure SnsRecord where
  sns : SnsEntity

/-- The inbound SNS event, a list of records. -/
structure SnsEvent where
  records : List SnsRecord

/-- Send, lib.rs 45-55: posts the payload to the webhook and only logs
the result, so its value is the log line; the delivery outcome stands for
the response of the external webhook. -/
def send (_webhook : String) (_p : Payload) (outcome : DeliveryOutcome) :
    String :=
  match outcome with
  | DeliveryOutcome.accepted => "Message sent to Slack"
  | DeliveryOutcome.rejected => "ERR: delivery rejected"

/-- Decoding of the first record, lib.rs 32-33: index records[0], unwrap
the optional message and deserialize it; each Rust panic becomes an error.
The serde decoder itself is external glue and is passed in as the parse
function. -/
def decodeFirst (parse : String → Option Message) (event : SnsEvent) :
    Except String Message :=
  match event.records.head? with
  | none => Except.error "index out of bounds: the len is 0"
  | some r =>
    match r.sns.message with
    | none => Except.error "called unwrap on a None value"
    | some s =>
      match parse s with
      | none => Except.error "Failed to deserialize message, wrong format."
      | some m => Except.ok m

/-- Handler, lib.rs 31-43: decode the first record, read the webhook URL
from the environment, build and send the payload, absorb the delivery
result, and report OK. -/
def handler (parse : String → Option Message) (webhook_env : Option String)
    (outcome : DeliveryOutcome) (event : SnsEvent) : Except String Json :=
  match decodeFirst parse event with
  | Except.error e => Except.error e
  | Except.ok message =>
    match webhook_env with
    | none =>
      Except.error "ERR: WEBHOOK_URL environment variable not set, fatal"
    | some webhook =>
      match message.build_payload with
      | Except.error e => Except.error e
      | Except.ok p =>
        let _log := send webhook p outcome
        Except.ok okJson

/-- The payload the handler hands to send, as a function of the event. -/
def composedPayload (parse : String → Option Message) (event : SnsEvent) :
    Except String Payload :=
  match decodeFirst parse event with
  | Except.error e => Except.error e
  | Except.ok m => m.build_payload

/-- A parse function decoding every document to a fixed message; stands
for serde on the documents of the concrete witnesses. -/
def parseConst (m : Message) : String → Option Message :=
  fun _ => some m

/-- An SNS record wrapping one document. -/
def recordOf (s : String) : SnsRecord :=
  { sns := { message := some s } }

/-- A concrete timestamp. -/
def dt0 : DateTime :=
  { year := 2022, month := 1, day := 10, hour := 12, minute := 30,
    second := 0 }

/-- Another concrete timestamp. -/
def dt1 : DateTime :=
  { year := 2022, month := 2, day := 3, hour := 8, minute := 5, second := 9 }

/-- A concrete service block. -/
def exService : Service :=
  { service_name := "guardduty", detector_id := "d1", action := Json.null,
    resource_role := "TARGET", additional_info := Json.null,
    event_first_seen := dt0, event_last_seen := dt1, archived := false,
    count := 3 }

/-- A concrete message with the given finding type and severity. -/
def exMessage (tipe : String) (severity : F32) : Message :=
  { version := "0", id := "abc", detail_type := "GuardDuty Finding",
    source := "aws.guardduty", account := "123456789012", time := dt0,
    region := "eu-west-2", resources := Json.null,
    detail :=
      { schema_version := "2.0", account_id := "123456789012",
        region := "eu-west-2", partition := "aws", id := "f1",
        arn := "arn-of-finding", tipe := tipe, resource := Json.null,
        service := exService, severity := severity, created_at := dt0,
        updated_at := dt1, title := "title", description := "desc" } }

/-- Finding whose category token is iamuser. -/
def msgRecon : Message := exMessage "Recon:IAMUser/MaliciousIPCaller" (some 5)

/-- Finding whose category token is outside the closed table. -/
def msgWeird : Message := exMessage "Persistence:UnknownService/Weird" (some 5)

/-- Finding type with no colon-slash pattern at all. -/
def msgFoo : Message := exMessage "Foo" (some 5)

/-- Finding type with a second colon between the first colon and the
slash. -/
def msgNested : Message := exMessage "Backdoor:Odd:IAMUser/Thing" (some 5)

/-- The SSH brute force example finding. -/
def msgSsh : Message := exMessage "UnauthorizedAccess:EC2/SSHBruteForce" (some 8)

/-- A Low severity finding. -/
def msgLow : Message := exMessage "Recon:EC2/PortProbe" (some 2)

/-- Event with one record. -/
def evOne : SnsEvent := { records := [recordOf "finding"] }

/-- Event with the same first record and one extra record. -/
def evTwo : SnsEvent := { records := [recordOf "finding", recordOf "extra"] }

/-- Unfolding of the resolver with its let bindings reduced. -/
theorem finding_link_eq (m : Message) :
    m.finding_link =
      match captures (to_lowercase m.detail.tipe).data with
      | none => ""
      | some cap =>
        match groupOf cap with
        | none => ""
        | some group_str =>
          base_url ++ group_str ++ ".html#" ++
            String.mk (replaceMatch (to_lowercase m.detail.tipe).data
              (("-" ++ group_str ++ "-").data)) := rfl

/-- Appending the empty string is the identity. -/
theorem string_append_empty (s : String) : s ++ "" = s := by
  cases s with
  | mk data => exact congrArg String.mk (List.append_nil data)

/-- A successful scan after a colon decomposes the remainder into the
capture, the closing slash and the suffix, with every captured character a
word character. -/
theorem matchAfterColon_some :
    ∀ {rest cap : List Char}, matchAfterColon rest = some cap →
      ∃ suf, rest = cap ++ '/' :: suf ∧
        List.drop (cap.length + 1) rest = suf ∧
        cap.all isWordChar = true := by
  intro rest
  induction rest with
  | nil => intro cap h; exact absurd h (by simp [matchAfterColon])
  | cons c rs ih =>
    intro cap h
    rw [matchAfterColon] at h
    by_cases hc : c = '/'
    · rw [if_pos hc] at h
      cases h
      exact ⟨rs, by simp [hc], by simp, rfl⟩
    · rw [if_neg hc] at h
      by_cases hw : isWordChar c = true
      · rw [if_pos hw] at h
        rcases Option.map_eq_some'.mp h with ⟨cap0, hm, hcap⟩
        rcases ih hm with ⟨suf, h1, h2, h3⟩
        refine ⟨suf, ?_, ?_, ?_⟩
        · rw [← hcap]; simp [h1]
        · rw [← hcap]
          simpa using h2
        · rw [← hcap]
          simp [List.all_cons, hw, h3]
      · rw [if_neg hw] at h
        cases h

/-- Without a slash the scan after a colon fails. -/
theorem matchAfterColon_none :
    ∀ {rest : List Char}, '/' ∉ rest → matchAfterColon rest = none := by
  intro rest
  induction rest with
  | nil => intro _; rfl
  | cons c rs ih =>
    intro h
    have hc : ¬ c = '/' := by
      intro hh
      exact h (by simp [hh])
    have hrs : '/' ∉ rs := fun hh => h (List.mem_cons_of_mem c hh)
    rw [matchAfterColon, if_neg hc, ih hrs]
    simp

/-- Without a slash there is no capture anywhere in the string. -/
theorem captures_none :
    ∀ {cs : List Char}, '/' ∉ cs → captures cs = none := by
  intro cs
  induction cs with
  | nil => intro _; rfl
  | cons c rs ih =>
    intro h
    have hrs : '/' ∉ rs := fun hh => h (List.mem_cons_of_mem c hh)
    rw [captures, matchAfterColon_none hrs, ih hrs]
    simp

/-- When beforeFirst fails the character does not occur in the list. -/
theorem beforeFirst_none :
    ∀ {t : Char} {l : List Char}, beforeFirst t l = none → t ∉ l := by
  intro t l
  induction l with
  | nil => intro _ hm; simp at hm
  | cons c rs ih =>
    intro h hm
    rw [beforeFirst] at h
    by_cases hc : c = t
    · rw [if_pos hc] at h
      cases h
    · rw [if_neg hc] at h
      rcases List.mem_cons.mp hm with hm1 | hm2
      · exact hc hm1.symm
      · exact ih (Option.map_eq_none'.mp h) hm2

/-- When the spec extraction finds nothing, neither does the regex
model. -/
theorem specToken_none_captures :
    ∀ {cs : List Char}, specToken cs = none → captures cs = none := by
  intro cs
  induction cs with
  | nil => intro _; rfl
  | cons c rs ih =>
    intro h
    rw [captures]
    by_cases hc : c = ':'
    · rw [if_pos hc]
      have hb : beforeFirst '/' rs = none := by
        rw [specToken, afterFirst, if_pos hc] at h
        simpa using h
      have hs : '/' ∉ rs := beforeFirst_none hb
      rw [matchAfterColon_none hs]
      exact captures_none hs
    · rw [if_neg hc]
      apply ih
      rw [specToken, afterFirst, if_neg hc] at h
      exact h

/-- A beforeFirst capture made of word characters is exactly what the
scan after a colon yields. -/
theorem beforeFirst_match :
    ∀ {rs cap : List Char}, beforeFirst '/' rs = some cap →
      cap.all isWordChar = true → matchAfterColon rs = some cap := by
  intro rs
  induction rs with
  | nil => intro cap h _; exact absurd h (by simp [beforeFirst])
  | cons c rest ih =>
    intro cap h hw
    rw [beforeFirst] at h
    rw [matchAfterColon]
    by_cases hc : c = '/'
    · rw [if_pos hc] at h
      cases h
      rw [if_pos hc]
    · rw [if_neg hc] at h
      rcases Option.map_eq_some'.mp h with ⟨cap0, hb, hcap⟩
      rw [← hcap] at hw
      rw [List.all_cons, Bool.and_eq_true] at hw
      rw [if_neg hc, if_pos hw.1, ih hb hw.2, ← hcap]
      rfl

/-- When the spec extraction succeeds with a pure word token, the regex
model extracts the same token. -/
theorem specToken_captures :
    ∀ {cs cap : List Char}, specToken cs = some cap →
      cap.all isWordChar = true → captures cs = some cap := by
  intro cs
  induction cs with
  | nil => intro cap h _; exact absurd h (by simp [specToken, afterFirst])
  | cons c rs ih =>
    intro cap h hw
    rw [captures]
    by_cases hc : c = ':'
    · rw [if_pos hc]
      have hb : beforeFirst '/' rs = some cap := by
        rw [specToken, afterFirst, if_pos hc] at h
        simpa using h
      rw [beforeFirst_match hb hw]
    · rw [if_neg hc]
      apply ih _ hw
      rw [specToken, afterFirst, if_neg hc] at h
      exact h

/-- A successful capture decomposes the string around the leftmost match,
and replaceMatch rewrites exactly that match. -/
theorem captures_replace :
    ∀ {cs cap : List Char} (repl : List Char), captures cs = some cap →
      ∃ pre suf, cs = pre ++ ':' :: (cap ++ '/' :: suf) ∧
        replaceMatch cs repl = pre ++ repl ++ suf := by
  intro cs
  induction cs with
  | nil => intro cap repl h; exact absurd h (by simp [captures])
  | cons c rs ih =>
    intro cap repl h
    rw [captures] at h
    by_cases hc : c = ':'
    · rw [if_pos hc] at h
      cases hm : matchAfterColon rs with
      | some cap0 =>
        rw [hm] at h
        have hcc : cap0 = cap := by simpa using h
        subst hcc
        rcases matchAfterColon_some hm with ⟨suf, h1, h2, _⟩
        refine ⟨[], suf, ?_, ?_⟩
        · simp [hc, h1]
        · rw [replaceMatch, if_pos hc, hm]
          simp [h2]
      | none =>
        rw [hm] at h
        rcases ih repl h with ⟨pre, suf, h1, h2⟩
        refine ⟨c :: pre, suf, ?_, ?_⟩
        · simp [h1]
        · rw [replaceMatch, if_pos hc, hm, h2]
          simp
    · rw [if_neg hc] at h
      rcases ih repl h with ⟨pre, suf, h1, h2⟩
      refine ⟨c :: pre, suf, ?_, ?_⟩
      · simp [h1]
      · rw [replaceMatch, if_neg hc, h2]
        simp

/-- Every tier of the default table carries a well-formed hex colour. -/
theorem validColour_level (severity : F32) :
    validColour (Levels.default.from_severity severity).colour = true := by
  unfold Levels.from_severity
  repeat' split
  all_goals rfl

/-- The composer never reaches the builder error branches. -/
theorem build_payload_ok (m : Message) :
    ∃ p, m.build_payload = Except.ok p := by
  have h := validColour_level m.detail.severity
  unfold Message.build_payload
  simp only [attachment_build, payload_build, h, if_true]
  exact ⟨_, rfl⟩

/-- C1: for every severity value the classifier returns Critical on
[9,10), High on [7,9), Medium on [4,7), Low on [1,4), and Unknown for
anything else, including negative values, values at or above 10, and NaN,
with half-open boundary semantics at 1, 4, 7, 9 and 10. -/
theorem c1_severity_classifier :
    (∀ x : ℚ, 9 ≤ x → x < 10 →
      Levels.default.from_severity (some x) = Levels.default.critical) ∧
    (∀ x : ℚ, 7 ≤ x → x < 9 →
      Levels.default.from_severity (some x) = Levels.default.high) ∧
    (∀ x : ℚ, 4 ≤ x → x < 7 →
      Levels.default.from_severity (some x) = Levels.default.medium) ∧
    (∀ x : ℚ, 1 ≤ x → x < 4 →
      Levels.default.from_severity (some x) = Levels.default.low) ∧
    (∀ x : ℚ, x < 1 ∨ 10 ≤ x →
      Levels.default.from_severity (some x) = Levels.default.unknown) ∧
    Levels.default.from_severity none = Levels.default.unknown := by
  refine ⟨?_, ?_, ?_, ?_, ?_, rfl⟩
  · intro x h1 h2
    simp [Levels.from_severity, f32_ge, f32_lt, h1, h2]
  · intro x h1 h2
    have h3 : ¬ (9 : ℚ) ≤ x := by linarith
    simp [Levels.from_severity, f32_ge, f32_lt, h1, h2, h3]
  · intro x h1 h2
    have h3 : ¬ (9 : ℚ) ≤ x := by linarith
    have h4 : ¬ (7 : ℚ) ≤ x := by linarith
    simp [Levels.from_severity, f32_ge, f32_lt, h1, h2, h3, h4]
  · intro x h1 h2
    have h3 : ¬ (9 : ℚ) ≤ x := by linarith
    have h4 : ¬ (7 : ℚ) ≤ x := by linarith
    have h5 : ¬ (4 : ℚ) ≤ x := by linarith
    simp [Levels.from_severity, f32_ge, f32_lt, h1, h2, h3, h4, h5]
  · intro x h
    rcases h with h | h
    · have h3 : ¬ (9 : ℚ) ≤ x := by linarith
      have h4 : ¬ (7 : ℚ) ≤ x := by linarith
      have h5 : ¬ (4 : ℚ) ≤ x := by linarith
      have h6 : ¬ (1 : ℚ) ≤ x := by linarith
      simp [Levels.from_severity, f32_ge, f32_lt, h3, h4, h5, h6]
    · have h3 : ¬ x < 10 := by linarith
      have h4 : ¬ x < 9 := by linarith
      have h5 : ¬ x < 7 := by linarith
      have h6 : ¬ x < 4 := by linarith
      simp [Levels.from_severity, f32_ge, f32_lt, h3, h4, h5, h6]

/-- C1 witness: the classifier evaluated at the exact boundary points, at
a negative value and at NaN. -/
theorem c1_severity_classifier_witness :
    Levels.default.from_severity (some 9) = Levels.default.critical ∧
    Levels.default.from_severity (some 7) = Levels.default.high ∧
    Levels.default.from_severity (some 4) = Levels.default.medium ∧
    Levels.default.from_severity (some 1) = Levels.default.low ∧
    Levels.default.from_severity (some 10) = Levels.default.unknown ∧
    Levels.default.from_severity (some (-3)) = Levels.default.unknown ∧
    Levels.default.from_severity none = Levels.default.unknown :=
  ⟨c1_severity_classifier.1 9 (by norm_num) (by norm_num),
   c1_severity_classifier.2.1 7 (by norm_num) (by norm_num),
   c1_severity_classifier.2.2.1 4 (by norm_num) (by norm_num),
   c1_severity_classifier.2.2.2.1 1 (by norm_num) (by norm_num),
   c1_severity_classifier.2.2.2.2.1 10 (Or.inr (by norm_num)),
   c1_severity_classifier.2.2.2.2.1 (-3) (Or.inl (by norm_num)),
   c1_severity_classifier.2.2.2.2.2⟩

/-- C2: with cap the category token extracted from the lower-cased
finding type, the four tokens of the closed table map exactly as listed
into the link group, and any token outside the table makes link resolution
return the empty string, fail closed. -/
theorem c2_fail_closed_table (m : Message) (cap : List Char)
    (h : captures (to_lowercase m.detail.tipe).data = some cap) :
    (cap = "iamuser".data →
      ∃ anchor, m.finding_link = base_url ++ "iam" ++ ".html#" ++ anchor) ∧
    (cap = "ec2".data →
      ∃ anchor, m.finding_link = base_url ++ "ec2" ++ ".html#" ++ anchor) ∧
    (cap = "s3".data →
      ∃ anchor, m.finding_link = base_url ++ "s3" ++ ".html#" ++ anchor) ∧
    (cap = "kubernetes".data →
      ∃ anchor,
        m.finding_link = base_url ++ "kubernetes" ++ ".html#" ++ anchor) ∧
    (cap ≠ "iamuser".data → cap ≠ "ec2".data → cap ≠ "s3".data →
      cap ≠ "kubernetes".data → m.finding_link = "") := by
  rw [finding_link_eq, h]
  refine ⟨?_, ?_, ?_, ?_, ?_⟩
  · intro hcap
    rw [hcap]
    exact ⟨_, rfl⟩
  · intro hcap
    rw [hcap]
    exact ⟨_, rfl⟩
  · intro hcap
    rw [hcap]
    exact ⟨_, rfl⟩
  · intro hcap
    rw [hcap]
    exact ⟨_, rfl⟩
  · intro h1 h2 h3 h4
    have hg : groupOf cap = none := by
      rw [groupOf, if_neg h1, if_neg h2, if_neg h3, if_neg h4]
    simp only [hg]

/-- C2 witness: a token in the table resolves through its listed group
and a token outside the table resolves to the empty string. -/
theorem c2_fail_closed_table_witness :
    (∃ anchor,
      msgRecon.finding_link = base_url ++ "iam" ++ ".html#" ++ anchor) ∧
    msgWeird.finding_link = "" :=
  ⟨(c2_fail_closed_table msgRecon "iamuser".data rfl).1 rfl,
   (c2_fail_closed_table msgWeird "unknownservice".data rfl).2.2.2.2
     (by decide) (by decide) (by decide) (by decide)⟩

/-- C3 counterexample: on a finding type holding a second colon between
the first colon and the slash, the substring between the first colon and
the following slash is odd:iamuser, while the resolver captures iamuser,
and it even resolves a non-empty link from it. -/
theorem c3_counterexample :
    specToken (to_lowercase msgNested.detail.tipe).data =
      some "odd:iamuser".data ∧
    captures (to_lowercase msgNested.detail.tipe).data =
      some "iamuser".data ∧
    ("odd:iamuser".data : List Char) ≠ "iamuser".data ∧
    msgNested.finding_link ≠ "" := by
  refine ⟨rfl, rfl, by decide, by decide⟩

/-- C3 amended: the resolver extracts the leftmost run of word characters
lying between a colon and an immediately following slash; this agrees with
the substring between the first colon and the following slash whenever
that substring consists of word characters, and when no colon-to-slash
substring exists at all the capture fails and the resolver returns the
empty string without any fault. -/
theorem c3_amended_extraction (m : Message) :
    (∀ cap, specToken (to_lowercase m.detail.tipe).data = some cap →
      cap.all isWordChar = true →
      captures (to_lowercase m.detail.tipe).data = some cap) ∧
    (specToken (to_lowercase m.detail.tipe).data = none →
      captures (to_lowercase m.detail.tipe).data = none ∧
        m.finding_link = "") := by
  constructor
  · intro cap h hw
    exact specToken_captures h hw
  · intro h
    have hc := specToken_none_captures h
    refine ⟨hc, ?_⟩
    rw [finding_link_eq, hc]

/-- C3 witness: the delimited word token of the Recon finding type is
extracted as claimed, and the colon-free finding type Foo fails with an
empty link and no fault. -/
theorem c3_amended_extraction_witness :
    captures (to_lowercase msgRecon.detail.tipe).data =
      some "iamuser".data ∧
    (captures (to_lowercase msgFoo.detail.tipe).data = none ∧
      msgFoo.finding_link = "") :=
  ⟨(c3_amended_extraction msgRecon).1 "iamuser".data rfl rfl,
   (c3_amended_extraction msgFoo).2 rfl⟩

/-- C4: when the captured category token is in the closed table, the
resolved link is the base docs URL, the mapped group, .html#, and the
anchor obtained by rewriting the matched colon-category-slash delimiter
segment of the lower-cased finding type to -group-. -/
theorem c4_link_composition (m : Message) (cap : List Char) (g : String)
    (h1 : captures (to_lowercase m.detail.tipe).data = some cap)
    (h2 : groupOf cap = some g) :
    ∃ pre suf,
      (to_lowercase m.detail.tipe).data = pre ++ ':' :: (cap ++ '/' :: suf) ∧
      m.finding_link = base_url ++ g ++ ".html#" ++
        String.mk (pre ++ ("-" ++ g ++ "-").data ++ suf) := by
  rcases captures_replace (("-" ++ g ++ "-").data) h1 with ⟨pre, suf, hdec, hrep⟩
  refine ⟨pre, suf, hdec, ?_⟩
  simp only [finding_link_eq, h1, h2]
  rw [hrep]

/-- C4 witness: the Recon finding type lower-cases to category iamuser
and resolves through group iam. -/
theorem c4_link_composition_witness :
    ∃ pre suf,
      (to_lowercase msgRecon.detail.tipe).data =
        pre ++ ':' :: ("iamuser".data ++ '/' :: suf) ∧
      msgRecon.finding_link = base_url ++ "iam" ++ ".html#" ++
        String.mk (pre ++ ("-" ++ "iam" ++ "-").data ++ suf) :=
  c4_link_composition msgRecon "iamuser".data "iam" rfl rfl

/-- C5 counterexample: the resolved link for the SSH brute force finding
type does not end in the ending the claim states, which drops the letter c
of force. -/
theorem c5_counterexample :
    List.isSuffixOf "ec2.html#unauthorizedaccess-ec2-sshbrutefore".data
      msgSsh.finding_link.data = false := by
  decide

/-- C5 amended: resolveLink on UnauthorizedAccess:EC2/SSHBruteForce
captures category ec2, rewrites the delimiter segment to -ec2-, and the
link ends exactly in ec2.html#unauthorizedaccess-ec2-sshbruteforce. -/
theorem c5_amended_link :
    captures (to_lowercase msgSsh.detail.tipe).data = some "ec2".data ∧
    msgSsh.finding_link = base_url ++ "ec2" ++ ".html#" ++
      "unauthorizedaccess-ec2-sshbruteforce" ∧
    List.isSuffixOf "ec2.html#unauthorizedaccess-ec2-sshbruteforce".data
      msgSsh.finding_link.data = true := by
  refine ⟨rfl, by decide, by decide⟩

/-- C6 counterexample: a Low finding has an empty mention, yet the
composed pretext ends in a stray trailing space where the mention would
have been rendered. -/
theorem c6_counterexample :
    Levels.default.from_severity msgLow.detail.severity =
      Levels.default.low ∧
    Levels.default.low.mention = "" ∧
    ((msgLow.build_payload.toOption.bind fun p => p.attachments.head?).map
      fun a => a.pretext) =
        some "*Finding in eu-west-2 from account 123456789012* " ∧
    List.isSuffixOf " ".data
      "*Finding in eu-west-2 from account 123456789012* ".data = true := by
  refine ⟨rfl, rfl, rfl, by decide⟩

/-- C6 amended: for every finding classified Low or Unknown the mention
is exactly the empty string, but the composed pretext is the fixed
template ending in one space where the mention would have been: the
template always writes a single space before the mention, so an empty
mention leaves exactly one trailing space. -/
theorem c6_amended_mention (m : Message) (p : Payload)
    (hlev : Levels.default.from_severity m.detail.severity =
        Levels.default.low ∨
      Levels.default.from_severity m.detail.severity =
        Levels.default.unknown)
    (hp : m.build_payload = Except.ok p) :
    (Levels.default.from_severity m.detail.severity).mention = "" ∧
    ∃ a, p.attachments = [a] ∧
      a.pretext = "*Finding in " ++ m.detail.region ++ " from account " ++
        m.detail.account_id ++ "* " := by
  have hm : (Levels.default.from_severity m.detail.severity).mention = "" := by
    rcases hlev with h | h <;> rw [h] <;> rfl
  refine ⟨hm, ?_⟩
  have h := validColour_level m.detail.severity
  unfold Message.build_payload at hp
  simp only [attachment_build, payload_build, h, if_true] at hp
  cases hp
  refine ⟨_, rfl, ?_⟩
  rw [hm]
  exact string_append_empty _

/-- C6 witness: the amended statement evaluated on a concrete Low
finding. -/
theorem c6_amended_mention_witness :
    (Levels.default.from_severity msgLow.detail.severity).mention = "" ∧
    ∃ a, (payloadOf msgLow).attachments = [a] ∧
      a.pretext = "*Finding in " ++ msgLow.detail.region ++
        " from account " ++ msgLow.detail.account_id ++ "* " :=
  c6_amended_mention msgLow (payloadOf msgLow) (Or.inl rfl) rfl

/-- C7: the composed payload carries exactly four labelled fields, in the
order Severity, First seen, Count, Last seen, with the stringified
severity and count and the chrono-formatted timestamps, each field marked
short. -/
theorem c7_fields (m : Message) (p : Payload)
    (hp : m.build_payload = Except.ok p) :
    ∃ a, p.attachments = [a] ∧
      a.fields =
        [{ title := "Severity", value := f32Display m.detail.severity,
           short := some true },
         { title := "First seen",
           value := formatDateTime m.detail.service.event_first_seen,
           short := some true },
         { title := "Count", value := toString m.detail.service.count,
           short := some true },
         { title := "Last seen",
           value := formatDateTime m.detail.service.event_last_seen,
           short := some true }] := by
  have h := validColour_level m.detail.severity
  unfold Message.build_payload at hp
  simp only [attachment_build, payload_build, h, if_true] at hp
  cases hp
  exact ⟨_, rfl, rfl⟩

/-- C7 witness: the four fields evaluated on a concrete finding. -/
theorem c7_fields_witness :
    ∃ a, (payloadOf msgLow).attachments = [a] ∧
      a.fields =
        [{ title := "Severity", value := f32Display msgLow.detail.severity,
           short := some true },
         { title := "First seen",
           value := formatDateTime msgLow.detail.service.event_first_seen,
           short := some true },
         { title := "Count", value := toString msgLow.detail.service.count,
           short := some true },
         { title := "Last seen",
           value := formatDateTime msgLow.detail.service.event_last_seen,
           short := some true }] :=
  c7_fields msgLow (payloadOf msgLow) rfl

/-- C8: composing the payload is total: for every finding it returns a
payload and never reaches a builder panic branch, and the title link field
carries the resolver output, which may be the empty string. -/
theorem c8_compose_total (m : Message) :
    ∃ p, m.build_payload = Except.ok p ∧
      ∃ a, p.attachments = [a] ∧ a.title_link = m.finding_link := by
  have h := validColour_level m.detail.severity
  unfold Message.build_payload
  simp only [attachment_build, payload_build, h, if_true]
  exact ⟨_, rfl, _, rfl, rfl⟩

/-- C9: whether the webhook accepts or rejects the message, the handler
reports success: the delivery outcome is absorbed inside send and never
changes the returned value. -/
theorem c9_handler_always_ok (parse : String → Option Message)
    (event : SnsEvent) (r : SnsRecord) (s : String) (m : Message)
    (url : String)
    (h1 : event.records.head? = some r) (h2 : r.sns.message = some s)
    (h3 : parse s = some m) :
    ∀ outcome : DeliveryOutcome,
      handler parse (some url) outcome event = Except.ok okJson := by
  intro outcome
  have hd : decodeFirst parse event = Except.ok m := by
    simp only [decodeFirst, h1, h2, h3]
  rcases build_payload_ok m with ⟨p, hp⟩
  simp only [handler, hd, hp]

/-- C9 witness: the handler evaluated on a concrete event under both
delivery outcomes. -/
theorem c9_handler_always_ok_witness :
    handler (parseConst msgLow) (some "https://hooks.example/services/x")
      DeliveryOutcome.accepted evOne = Except.ok okJson ∧
    handler (parseConst msgLow) (some "https://hooks.example/services/x")
      DeliveryOutcome.rejected evOne = Except.ok okJson :=
  ⟨c9_handler_always_ok (parseConst msgLow) evOne (recordOf "finding")
      "finding" msgLow "https://hooks.example/services/x" rfl rfl rfl
      DeliveryOutcome.accepted,
   c9_handler_always_ok (parseConst msgLow) evOne (recordOf "finding")
      "finding" msgLow "https://hooks.example/services/x" rfl rfl rfl
      DeliveryOutcome.rejected⟩

/-- C10: the handler reads only the first record of the inbound event:
two events whose first record carries the same message produce the same
handler result and the same composed payload, so additional records have
no effect on the outcome. -/
theorem c10_first_record_only (parse : String → Option Message)
    (webhook_env : Option String) (outcome : DeliveryOutcome)
    (e1 e2 : SnsEvent)
    (h : (e1.records.head?).map (fun r => r.sns.message) =
        (e2.records.head?).map (fun r => r.sns.message)) :
    handler parse webhook_env outcome e1 =
      handler parse webhook_env outcome e2 ∧
    composedPayload parse e1 = composedPayload parse e2 := by
  have hd : decodeFirst parse e1 = decodeFirst parse e2 := by
    unfold decodeFirst
    cases h1 : e1.records.head? with
    | none =>
      cases h2 : e2.records.head? with
      | none => rfl
      | some r2 =>
        rw [h1, h2] at h
        simp at h
    | some r1 =>
      cases h2 : e2.records.head? with
      | none =>
        rw [h1, h2] at h
        simp at h
      | some r2 =>
        rw [h1, h2] at h
        simp only [Option.map_some', Option.some.injEq] at h
        simp only [h]
  constructor
  · unfold handler
    rw [hd]
  · unfold composedPayload
    rw [hd]

/-- C10 witness: appending an extra record to a one-record event changes
neither the handler result nor the composed payload. -/
theorem c10_first_record_only_witness :
    handler (parseConst msgLow) (some "https://hooks.example/services/x")
      DeliveryOutcome.accepted evOne =
      handler (parseConst msgLow) (some "https://hooks.example/services/x")
        DeliveryOutcome.accepted evTwo ∧
    composedPayload (parseConst msgLow) evOne =
      composedPayload (parseConst msgLow) evTwo :=
  c10_first_record_only (parseConst msgLow)
    (some "https://hooks.example/services/x") DeliveryOutcome.accepted
    evOne evTwo rfl

end GuardDuty
